import Mathlib

/-!
Verification of the command arbitration and execution core of the tello_project
teleoperation application, shallowly embedded from src/drone_control.py and the
GUI variant under src/gui/.  Python text values are modelled as lists of
characters, machine state (the drone_in_air flag, debounce counters, cooldown
timestamps, the bounded command queue) is passed explicitly, and the fallible
vehicle transport (the djitellopy Tello object) is modelled by an oracle
mapping each transport call to whether it raises.  Observable behaviour of a
call to an execution routine is the final flight state, the ordered list of
transport calls attempted, and the returned or printed outcome.
-/

namespace Tello

/-- Python strings modelled as lists of characters. -/
abbrev Str := List Char

/-- Whitespace test matching what Python str.strip removes on ASCII input:
space, tab, newline, carriage return, vertical tab and form feed. -/
def isWs (c : Char) : Bool :=
  decide (c.toNat = 32 ∨ c.toNat = 9 ∨ c.toNat = 10 ∨ c.toNat = 13 ∨
          c.toNat = 11 ∨ c.toNat = 12)

/-- Lower-casing of one character as Python str.lower acts on ASCII letters. -/
def lowerChar (c : Char) : Char :=
  if 65 ≤ c.toNat ∧ c.toNat ≤ 90 then Char.ofNat (c.toNat + 32) else c

/-- Python str.lower on a string. -/
def lowerStr (s : Str) : Str := s.map lowerChar

/-- Python str.strip: drop leading and trailing whitespace. -/
def strip (s : Str) : Str :=
  ((s.dropWhile isWs).reverse.dropWhile isWs).reverse

/-- List-of-characters prefix test, auxiliary for substring containment. -/
def prefixOf : Str → Str → Bool
  | [], _ => true
  | _ :: _, [] => false
  | a :: as, b :: bs => a == b && prefixOf as bs

/-- Python substring containment, the expression a in b on strings. -/
def substr (a : Str) : Str → Bool
  | [] => a.isEmpty
  | b :: bs => prefixOf a (b :: bs) || substr a bs

/-- One call into the djitellopy transport, the opaque vehicle command link. -/
inductive TelloCall where
  | takeoff
  | land
  | moveForward (d : Nat)
  | moveBack (d : Nat)
  | moveLeft (d : Nat)
  | moveRight (d : Nat)
  | moveUp (d : Nat)
  | moveDown (d : Nat)
  | rotateCCW (deg : Nat)
  | rotateCW (deg : Nat)
  | sendRc (lr fb ud yaw : Int)
  | flip (dir : Char)
  deriving DecidableEq, Repr

/-- Printed or returned outcome of the CLI execute_command: the command was
executed, rejected by a state guard, or a transport error was caught. -/
inductive Res where
  | ok
  | rejected
  | fails
  deriving DecidableEq, Repr

/-- Observable outcome of one call to execute_command in drone_control.py:
final drone_in_air flag, transport calls attempted in order, and outcome. -/
structure ExecOut where
  air : Bool
  calls : List TelloCall
  res : Res
  deriving DecidableEq, Repr

/-- The COMMANDS table of drone_control.py lines 70-86, in declaration order:
each canonical action paired with its accepted phrase variants. -/
def COMMANDS : List (Str × List Str) := [
  ("takeoff".data, ["take off".data, "start".data, "begin flight".data,
      "arise".data, "launch".data]),
  ("land".data, ["land".data, "stop".data, "descend fully".data, "ground".data]),
  ("move forward".data, ["move forward".data, "go forward".data, "fly forward".data]),
  ("move backward".data, ["move backward".data, "go back".data, "fly backward".data]),
  ("turn left".data, ["turn left".data, "rotate left".data]),
  ("turn right".data, ["turn right".data, "rotate right".data]),
  ("move left".data, ["move left".data, "go left".data, "fly left".data,
      "strafe left".data]),
  ("move right".data, ["move right".data, "go right".data, "fly right".data,
      "strafe right".data]),
  ("move up".data, ["move up".data, "ascend".data, "fly up".data]),
  ("move down".data, ["move down".data, "descend".data, "fly down".data]),
  ("hover".data, ["hover".data, "stay".data, "hold position".data,
      "stop moving".data]),
  ("flip forward".data, ["flip forward".data, "do a front flip".data]),
  ("flip backward".data, ["flip backward".data, "do a back flip".data]),
  ("flip left".data, ["flip left".data, "do a left flip".data]),
  ("flip right".data, ["flip right".data, "do a right flip".data])]

/-- The Unknown Command result string of recognize_command. -/
def unknownCmd : Str := "Unknown Command".data

/-- First action in the table one of whose phrases equals the text exactly,
the first loop of recognize_command in drone_control.py. -/
def matchExact (t : Str) : List (Str × List Str) → Option Str
  | [] => none
  | (action, phrases) :: rest =>
    if phrases.any (fun ph => ph == t) then some action else matchExact t rest

/-- First action in the table one of whose phrases is a substring of the text,
the second loop of recognize_command in drone_control.py. -/
def matchSub (t : Str) : List (Str × List Str) → Option Str
  | [] => none
  | (action, phrases) :: rest =>
    if phrases.any (fun ph => substr ph t) then some action else matchSub t rest

/-- State-dependent override inside recognize_command: land while grounded
becomes Already Landed, takeoff while airborne becomes Already Flying. -/
def stateOverride (air : Bool) (action : Str) : Str :=
  if action == "land".data && !air then "Already Landed".data
  else if action == "takeoff".data && air then "Already Flying".data
  else action

/-- Body of recognize_command in drone_control.py lines 89-112 after the
initial text = text.lower().strip() reassignment. -/
def recognizeCore (air : Bool) (t : Str) : Str :=
  if t.isEmpty then unknownCmd
  else
    match matchExact t COMMANDS with
    | some action => stateOverride air action
    | none =>
      match matchSub t COMMANDS with
      | some action => stateOverride air action
      | none => unknownCmd

/-- recognize_command of drone_control.py: lower-case and strip the text,
reject empty text, then exact matching before substring matching, with the
flight-state overrides.  The drone_in_air global is an explicit argument. -/
def recognize_command (air : Bool) (text : Str) : Str :=
  recognizeCore air (strip (lowerStr text))

/-- Run one transport call of execute_command inside its try block: if the
oracle makes the call raise, control jumps to the except handler with the
drone_in_air flag still holding its value from before the call, where a
single stabilizing zero-velocity hover is attempted when in the air (its own
failure swallowed); otherwise the flag is set to its post-command value. -/
def attemptCall (fail : TelloCall → Bool) (air : Bool) (c : TelloCall)
    (airAfter : Bool) : ExecOut :=
  if fail c then
    if air then ⟨air, [c, .sendRc 0 0 0 0], .fails⟩ else ⟨air, [c], .fails⟩
  else ⟨airAfter, [c], .ok⟩

/-- First-match association lookup on a phrase table, mirroring an elif
chain of equality tests in declaration order. -/
def lookupTbl {β : Type} (k : Str) : List (Str × β) → Option β
  | [] => none
  | (a, b) :: rest => if a == k then some b else lookupTbl k rest

/-- The airborne elif chain of execute_command in drone_control.py lines
131-158, as a first-match dispatch table from command name to transport
primitive: linear moves of 30 distance units, rotations of 45 degrees, an
explicit zero-velocity rc-control for hover, and the four flips. -/
def flightTable : List (Str × TelloCall) := [
  ("move forward".data, .moveForward 30),
  ("move backward".data, .moveBack 30),
  ("turn left".data, .rotateCCW 45),
  ("turn right".data, .rotateCW 45),
  ("move left".data, .moveLeft 30),
  ("move right".data, .moveRight 30),
  ("move up".data, .moveUp 30),
  ("move down".data, .moveDown 30),
  ("hover".data, .sendRc 0 0 0 0),
  ("flip forward".data, .flip 'f'),
  ("flip backward".data, .flip 'b'),
  ("flip left".data, .flip 'l'),
  ("flip right".data, .flip 'r')]

/-- execute_command of drone_control.py lines 114-172: guard takeoff and land
against the drone_in_air flag, dispatch movement, rotation, hover and flip
primitives only while in the air (via the elif chain rendered as
flightTable), print a rejection otherwise, and catch any transport error
inside the function. -/
def execute_command (fail : TelloCall → Bool) (air : Bool) (command : Str) :
    ExecOut :=
  if command == "takeoff".data then
    if !air then attemptCall fail air .takeoff true else ⟨air, [], .rejected⟩
  else if command == "land".data then
    if air then attemptCall fail air .land false else ⟨air, [], .rejected⟩
  else if air then
    match lookupTbl command flightTable with
    | some c => attemptCall fail air c air
    | none => ⟨air, [], .rejected⟩
  else ⟨air, [], .rejected⟩

/-- Enqueue step of listen_for_voice_commands in drone_control.py lines
227-235 on its maxsize-5 queue: append when below capacity, otherwise remove
the oldest queued item with get_nowait and then append the new one.  The list
head is the oldest item. -/
def listenerEnqueue {α : Type} (q : List α) (x : α) : List α :=
  if q.length < 5 then q ++ [x] else q.drop 1 ++ [x]

/-- SpeechHandler.add_to_queue of src/gui/speech_handler.py lines 147-156 on a
queue of the given capacity: append when below capacity, otherwise only print
that the queue is full, leaving the queue unchanged and the new item dropped. -/
def add_to_queue {α : Type} (cap : Nat) (q : List α) (x : α) : List α :=
  if q.length < cap then q ++ [x] else q

/-- Disposition of one dequeued item in the VLM branch of the command
processor: dispatched to the vision model, dropped by the cooldown, or
dropped because no frame was available. -/
inductive VlmAct where
  | modelCall
  | dropCool
  | dropNoFrame
  deriving DecidableEq, Repr

/-- One iteration of the VLM branch of command_processor in drone_control.py
lines 376-402 (identical logic in CommandHandler.process_vlm_command, lines
112-143 of src/gui/command_handler.py): given the timestamp of the last
accepted dispatch, the current time and whether a frame is available, the
item is dropped when less than the 3 second cooldown has elapsed, dropped
without touching the cooldown when no frame is available, and otherwise the
cooldown timestamp is set to the current time and the model is called. -/
def vlmStep (lastT now : ℚ) (frameAvail : Bool) : VlmAct × ℚ :=
  if 3 < now - lastT then
    if frameAvail then (.modelCall, now) else (.dropNoFrame, lastT)
  else (.dropCool, lastT)

/-- Iterated VLM processing of a list of dequeued items, each tagged with its
dequeue time and frame availability. -/
def vlmRun (lastT : ℚ) : List (ℚ × Bool) → List (ℚ × VlmAct)
  | [] => []
  | (now, fa) :: rest =>
    ((now, (vlmStep lastT now fa).1)) :: vlmRun (vlmStep lastT now fa).2 rest

/-- Action taken by one watchdog tick besides updating the flying flag. -/
inductive WatchAct where
  | landAct
  | heartbeat
  deriving DecidableEq, Repr

/-- One tick of keep_drone_alive in drone_control.py lines 615-669 with a
successfully read battery level: at most 10 percent it lands if flying, at
most 15 percent it lands if flying, and after the battery handling a
heartbeat command is sent whenever the drone is not flying.  Landing clears
the is_flying flag of the transport. -/
def keep_alive_tick (battery : Nat) (flying : Bool) : Bool × List WatchAct :=
  let st :=
    if battery ≤ 10 then
      if flying then (false, [WatchAct.landAct]) else (flying, ([] : List WatchAct))
    else if battery ≤ 15 ∧ flying then (false, [WatchAct.landAct])
    else (flying, [])
  if st.1 then st else (st.1, st.2 ++ [WatchAct.heartbeat])

/-- Iterated watchdog ticks over a sequence of battery readings, returning
the flag and actions after each tick. -/
def keep_alive_run (flying : Bool) : List Nat → List (Bool × List WatchAct)
  | [] => []
  | b :: rest =>
    keep_alive_tick b flying :: keep_alive_run (keep_alive_tick b flying).1 rest

/-- Debounce state of the gesture loop in run_drone_interface: the label of
the current run and the repeat counter.  Both start empty. -/
structure DebSt where
  temp : Str
  count : Nat
  deriving DecidableEq, Repr

/-- One high-confidence classified frame through the debounce logic of
run_drone_interface in drone_control.py lines 495-520: a repeated label
increments the counter, a changed label resets the counter to zero, and when
the counter reaches 5 the gesture is emitted and the counter reset. -/
def debStep (st : DebSt) (label : Str) : Option Str × DebSt :=
  let st2 := if label == st.temp then DebSt.mk st.temp (st.count + 1)
             else DebSt.mk label 0
  if st2.count == 5 then (some st2.temp, DebSt.mk st2.temp 0)
  else (none, st2)

/-- Gestures emitted over a sequence of high-confidence classified frames. -/
def debRun (st : DebSt) : List Str → List Str
  | [] => []
  | l :: rest =>
    (match (debStep st l).1 with | some g => [g] | none => []) ++
      debRun (debStep st l).2 rest

/-- Dispatch of an accepted gesture in run_drone_interface lines 509-520:
direction gestures send a fixed rc-control velocity regardless of flight
state, while flip and land go through execute_command.  Returns the final
drone_in_air flag and the transport calls of the dispatch itself. -/
def gestureDispatch (fail : TelloCall → Bool) (air : Bool) (g : Str) :
    Bool × List TelloCall :=
  if g == "forward".data then (air, [.sendRc 0 20 0 0])
  else if g == "backward".data then (air, [.sendRc 0 (-20) 0 0])
  else if g == "right".data then (air, [.sendRc 20 0 0 0])
  else if g == "left".data then (air, [.sendRc (-20) 0 0 0])
  else if g == "up".data then (air, [.sendRc 0 0 20 0])
  else if g == "down".data then (air, [.sendRc 0 0 (-20) 0])
  else if g == "flip".data then
    ((execute_command fail air ("flip forward".data)).air,
     (execute_command fail air ("flip forward".data)).calls)
  else if g == "land".data then
    ((execute_command fail air ("land".data)).air,
     (execute_command fail air ("land".data)).calls)
  else (air, [])

namespace CommandHandler

/-- Observable outcome of one call to CommandHandler.execute_command in
src/gui/command_handler.py: final drone_in_air flag, transport calls
attempted in order, the returned boolean, and whether the except handler ran. -/
structure GOut where
  air : Bool
  calls : List TelloCall
  ret : Bool
  caught : Bool
  deriving DecidableEq, Repr

/-- Run one transport call inside the try block of
CommandHandler.execute_command: a raising call jumps to the except handler
with drone_in_air unchanged, where a stabilizing hover is attempted when in
the air and False is returned; a successful call leads to return True. -/
def gAttempt (fail : TelloCall → Bool) (air : Bool) (c : TelloCall)
    (airAfter : Bool) : GOut :=
  if fail c then
    if air then ⟨air, [c, .sendRc 0 0 0 0], false, true⟩
    else ⟨air, [c], false, true⟩
  else ⟨airAfter, [c], true, false⟩

/-- The command_mapping table of CommandHandler.recognize_command, lines
175-220 of src/gui/command_handler.py, in declaration order: descriptive
phrase to djitellopy API method name. -/
def command_mapping : List (Str × Str) := [
  ("take off".data, "takeoff".data),
  ("takeoff".data, "takeoff".data),
  ("land".data, "land".data),
  ("move forward".data, "move_forward".data),
  ("go forward".data, "move_forward".data),
  ("fly forward".data, "move_forward".data),
  ("forward".data, "move_forward".data),
  ("move backward".data, "move_back".data),
  ("go back".data, "move_back".data),
  ("fly backward".data, "move_back".data),
  ("backward".data, "move_back".data),
  ("back".data, "move_back".data),
  ("turn left".data, "rotate_counter_clockwise".data),
  ("rotate left".data, "rotate_counter_clockwise".data),
  ("turn right".data, "rotate_clockwise".data),
  ("rotate right".data, "rotate_clockwise".data),
  ("move left".data, "move_left".data),
  ("go left".data, "move_left".data),
  ("fly left".data, "move_left".data),
  ("left".data, "move_left".data),
  ("strafe left".data, "move_left".data),
  ("move right".data, "move_right".data),
  ("go right".data, "move_right".data),
  ("fly right".data, "move_right".data),
  ("right".data, "move_right".data),
  ("strafe right".data, "move_right".data),
  ("move up".data, "move_up".data),
  ("ascend".data, "move_up".data),
  ("fly up".data, "move_up".data),
  ("up".data, "move_up".data),
  ("move down".data, "move_down".data),
  ("descend".data, "move_down".data),
  ("fly down".data, "move_down".data),
  ("down".data, "move_down".data),
  ("hover".data, "hover".data),
  ("stay".data, "hover".data),
  ("hold position".data, "hover".data),
  ("stop moving".data, "hover".data),
  ("flip forward".data, "flip_f".data),
  ("flip front".data, "flip_f".data),
  ("flip backward".data, "flip_b".data),
  ("flip back".data, "flip_b".data),
  ("flip left".data, "flip_l".data),
  ("flip right".data, "flip_r".data)]

/-- First pair whose phrase equals the text exactly, the first loop of
CommandHandler.recognize_command. -/
def matchExactG (t : Str) : List (Str × Str) → Option Str
  | [] => none
  | (phrase, api) :: rest =>
    if phrase == t then some api else matchExactG t rest

/-- First pair whose phrase is a substring of the text, the second loop of
CommandHandler.recognize_command. -/
def matchSubG (t : Str) : List (Str × Str) → Option Str
  | [] => none
  | (phrase, api) :: rest =>
    if substr phrase t then some api else matchSubG t rest

/-- Flight-state override of CommandHandler.recognize_command. -/
def stateOverrideG (air : Bool) (api : Str) : Str :=
  if api == "land".data && !air then "Already Landed".data
  else if api == "takeoff".data && air then "Already Flying".data
  else api

/-- Body of CommandHandler.recognize_command, lines 168-243 of
src/gui/command_handler.py, after the text = text.lower().strip()
reassignment. -/
def recognizeCoreG (air : Bool) (t : Str) : Str :=
  if t.isEmpty then unknownCmd
  else
    match matchExactG t command_mapping with
    | some api => stateOverrideG air api
    | none =>
      match matchSubG t command_mapping with
      | some api => stateOverrideG air api
      | none => unknownCmd

/-- CommandHandler.recognize_command: lower-case and strip, reject empty
text, exact matching before substring matching, with flight-state overrides. -/
def recognize_command (air : Bool) (text : Str) : Str :=
  recognizeCoreG air (strip (lowerStr text))

/-- The airborne elif chain of CommandHandler.execute_command, lines 275-319
of src/gui/command_handler.py, as a first-match dispatch table from API
command name to transport primitive: moves and rotations, direct rc-control
commands for gesture control, and the flips. -/
def airTable : List (Str × TelloCall) := [
  ("move_forward".data, .moveForward 30),
  ("move_back".data, .moveBack 30),
  ("move_left".data, .moveLeft 30),
  ("move_right".data, .moveRight 30),
  ("move_up".data, .moveUp 30),
  ("move_down".data, .moveDown 30),
  ("rotate_counter_clockwise".data, .rotateCCW 45),
  ("rotate_clockwise".data, .rotateCW 45),
  ("rc_forward".data, .sendRc 0 20 0 0),
  ("rc_back".data, .sendRc 0 (-20) 0 0),
  ("rc_left".data, .sendRc (-20) 0 0 0),
  ("rc_right".data, .sendRc 20 0 0 0),
  ("rc_up".data, .sendRc 0 0 20 0),
  ("rc_down".data, .sendRc 0 0 (-20) 0),
  ("flip_f".data, .flip 'f'),
  ("flip_b".data, .flip 'b'),
  ("flip_l".data, .flip 'l'),
  ("flip_r".data, .flip 'r')]

/-- CommandHandler.execute_command, lines 245-341 of
src/gui/command_handler.py: return False immediately in idle mode, guard
takeoff and land against drone_in_air, execute hover unconditionally, and
dispatch the remaining movement, rc and flip commands (via the elif chain
rendered as airTable) only while in the air, returning False otherwise;
transport errors are caught inside the method. -/
def execute_command (fail : TelloCall → Bool) (modality : Str) (air : Bool)
    (command : Str) : GOut :=
  if modality == "idle".data then ⟨air, [], false, false⟩
  else if command == "takeoff".data then
    if !air then gAttempt fail air .takeoff true else ⟨air, [], false, false⟩
  else if command == "land".data then
    if air then gAttempt fail air .land false else ⟨air, [], false, false⟩
  else if command == "hover".data then gAttempt fail air (.sendRc 0 0 0 0) air
  else if air then
    match lookupTbl command airTable with
    | some c => gAttempt fail air c air
    | none => ⟨air, [], false, false⟩
  else ⟨air, [], false, false⟩

/-- The gesture to command table of CommandHandler.process_gesture_command,
lines 152-162 of src/gui/command_handler.py. -/
def gesture_mapping : List (Str × Str) := [
  ("forward".data, "move_forward".data),
  ("backward".data, "move_back".data),
  ("left".data, "move_left".data),
  ("right".data, "move_right".data),
  ("up".data, "move_up".data),
  ("down".data, "move_down".data),
  ("flip".data, "flip_f".data),
  ("land".data, "land".data)]

/-- CommandHandler.process_gesture_command, lines 145-166: an empty gesture
name is ignored, a mapped gesture has its mapped command executed, an
unmapped gesture is ignored. -/
def process_gesture_command (fail : TelloCall → Bool) (modality : Str)
    (air : Bool) (g : Str) : Option GOut :=
  if g.isEmpty then none
  else
    match lookupTbl g gesture_mapping with
    | some cmd => some (execute_command fail modality air cmd)
    | none => none

end CommandHandler

/-- Debounce state of GestureProcessor in src/gui/gesture_processor.py:
current run label, repeat counter, and timestamp of the last accepted
gesture (the 0.5 second gesture cooldown). -/
structure GProcSt where
  temp : Str
  count : Nat
  lastT : ℚ
  deriving DecidableEq, Repr

/-- One frame with a detected hand and classifier confidence above 0.9
through GestureProcessor.process_frame, lines 88-106 of
src/gui/gesture_processor.py: a repeated label increments the counter, a
changed label resets it to zero, and once the counter is at least 5 and the
0.5 second cooldown has elapsed the gesture is returned and the counter and
timestamp updated. -/
def process_frame (st : GProcSt) (now : ℚ) (label : Str) : Option Str × GProcSt :=
  let st2 := if label == st.temp then GProcSt.mk st.temp (st.count + 1) st.lastT
             else GProcSt.mk label 0 st.lastT
  if 5 ≤ st2.count then
    if 1 / 2 < now - st2.lastT then
      (some label, GProcSt.mk st2.temp 0 now)
    else (none, st2)
  else (none, st2)

/-- Gestures returned by process_frame over a sequence of timestamped
high-confidence classified frames. -/
def gprocRun (st : GProcSt) : List (ℚ × Str) → List Str
  | [] => []
  | (now, l) :: rest =>
    (match (process_frame st now l).1 with | some g => [g] | none => []) ++
      gprocRun (process_frame st now l).2 rest

end Tello

namespace Tello

theorem char_ofNat_toNat_in : ∀ n, n < 123 → 97 ≤ n → (Char.ofNat n).toNat = n := by
  decide

theorem lowerChar_eq_self (c : Char) (h : ¬(65 ≤ c.toNat ∧ c.toNat ≤ 90)) :
    lowerChar c = c := by
  unfold lowerChar
  exact if_neg h

theorem lowerChar_toNat (c : Char) (h : 65 ≤ c.toNat ∧ c.toNat ≤ 90) :
    (lowerChar c).toNat = c.toNat + 32 := by
  unfold lowerChar
  rw [if_pos h]
  exact char_ofNat_toNat_in (c.toNat + 32) (by omega) (by omega)

theorem lowerChar_idem (c : Char) : lowerChar (lowerChar c) = lowerChar c := by
  by_cases h : 65 ≤ c.toNat ∧ c.toNat ≤ 90
  · apply lowerChar_eq_self
    rw [lowerChar_toNat c h]
    omega
  · rw [lowerChar_eq_self c h]
    exact lowerChar_eq_self c h

theorem isWs_lowerChar (c : Char) : isWs (lowerChar c) = isWs c := by
  by_cases h : 65 ≤ c.toNat ∧ c.toNat ≤ 90
  · unfold isWs
    rw [lowerChar_toNat c h, decide_eq_decide]
    omega
  · rw [lowerChar_eq_self c h]

theorem lowerStr_idem (s : Str) : lowerStr (lowerStr s) = lowerStr s := by
  unfold lowerStr
  rw [List.map_map]
  exact List.map_congr_left (fun c _ => lowerChar_idem c)

theorem dropWhile_dropWhile {α : Type} (p : α → Bool) (l : List α) :
    (l.dropWhile p).dropWhile p = l.dropWhile p := by
  induction l with
  | nil => rfl
  | cons a l ih =>
    cases h : p a
    · simp [List.dropWhile_cons, h]
    · simp [List.dropWhile_cons, h, ih]

theorem dropWhile_head_false {α : Type} (p : α → Bool) (l : List α) (a : α)
    (t : List α) (h : l.dropWhile p = a :: t) : p a = false := by
  induction l with
  | nil => simp at h
  | cons b l ih =>
    rw [List.dropWhile_cons] at h
    by_cases hb : p b = true
    · rw [if_pos hb] at h
      exact ih h
    · rw [if_neg hb] at h
      cases h
      simpa using hb

theorem strip_lowerStr (s : Str) : strip (lowerStr s) = lowerStr (strip s) := by
  have hw : (isWs ∘ lowerChar) = isWs := funext isWs_lowerChar
  unfold strip lowerStr
  rw [List.dropWhile_map, hw, ← List.map_reverse, List.dropWhile_map, hw,
      ← List.map_reverse]

theorem strip_idem (s : Str) : strip (strip s) = strip s := by
  have h1 : (strip s).dropWhile isWs = strip s := by
    cases hBr : strip s with
    | nil => rfl
    | cons a t =>
      have hsplit := List.takeWhile_append_dropWhile (p := isWs)
        (l := (s.dropWhile isWs).reverse)
      have happ : s.dropWhile isWs
          = strip s ++ ((s.dropWhile isWs).reverse.takeWhile isWs).reverse := by
        have h2 := congrArg List.reverse hsplit
        rw [List.reverse_append, List.reverse_reverse] at h2
        exact h2.symm
      rw [hBr, List.cons_append] at happ
      have ha : isWs a = false := dropWhile_head_false isWs s a _ happ
      rw [List.dropWhile_cons, if_neg (by simp [ha])]
  show (((strip s).dropWhile isWs).reverse.dropWhile isWs).reverse = strip s
  rw [h1]
  show (((((s.dropWhile isWs).reverse.dropWhile isWs).reverse).reverse).dropWhile
      isWs).reverse = strip s
  rw [List.reverse_reverse, dropWhile_dropWhile]
  rfl

theorem strip_eq_nil (s : Str) (h : ∀ c ∈ s, isWs c = true) : strip s = [] := by
  have h1 : s.dropWhile isWs = [] := by
    rw [List.dropWhile_eq_nil_iff]
    exact fun x hx => h x hx
  unfold strip
  rw [h1]
  rfl

theorem norm_idem (t : Str) :
    strip (lowerStr (strip (lowerStr t))) = strip (lowerStr t) := by
  rw [← strip_lowerStr (lowerStr t), lowerStr_idem, strip_idem]

theorem recognize_norm (air : Bool) (t : Str) :
    recognize_command air (strip (lowerStr t)) = recognize_command air t := by
  unfold recognize_command
  rw [norm_idem]

theorem recognize_normG (air : Bool) (t : Str) :
    CommandHandler.recognize_command air (strip (lowerStr t))
      = CommandHandler.recognize_command air t := by
  unfold CommandHandler.recognize_command
  rw [norm_idem]

end Tello

namespace Tello

/-- Claim C8: recognize_command is invariant under casing and surrounding
whitespace in both variants, so the text with spaces and capitals around
turn left yields the same result as turn left; and every empty or
whitespace-only input yields the Unknown Command result. -/
theorem C8_normalization_invariance :
    (∀ air t, recognize_command air t
        = recognize_command air (strip (lowerStr t))) ∧
    (∀ air t, CommandHandler.recognize_command air t
        = CommandHandler.recognize_command air (strip (lowerStr t))) ∧
    (∀ air t, (∀ c ∈ t, isWs c = true) →
        recognize_command air t = unknownCmd) ∧
    (∀ air t, (∀ c ∈ t, isWs c = true) →
        CommandHandler.recognize_command air t = unknownCmd) ∧
    (∀ air, recognize_command air ("  Turn LEFT  ".data)
        = recognize_command air ("turn left".data)) ∧
    (∀ air, CommandHandler.recognize_command air ("  Turn LEFT  ".data)
        = CommandHandler.recognize_command air ("turn left".data)) := by
  have hws : ∀ t : Str, (∀ c ∈ t, isWs c = true) →
      strip (lowerStr t) = [] := by
    intro t h
    apply strip_eq_nil
    intro c hc
    rcases List.mem_map.mp hc with ⟨d, hd, rfl⟩
    rw [isWs_lowerChar]
    exact h d hd
  refine ⟨fun air t => (recognize_norm air t).symm,
          fun air t => (recognize_normG air t).symm, ?_, ?_, ?_, ?_⟩
  · intro air t h
    unfold recognize_command
    rw [hws t h]
    rfl
  · intro air t h
    unfold CommandHandler.recognize_command
    rw [hws t h]
    rfl
  · intro air
    cases air <;> decide
  · intro air
    cases air <;> decide

/-- Witness for C8: a whitespace-only input is Unknown in both variants. -/
theorem C8_witness :
    recognize_command false (" ".data) = unknownCmd ∧
    CommandHandler.recognize_command false ("".data) = unknownCmd :=
  ⟨C8_normalization_invariance.2.2.1 false (" ".data) (by decide),
   C8_normalization_invariance.2.2.2.1 false ("".data) (by decide)⟩

/-- Claim C10: in the GUI variant, while the active modality is idle,
execute_command returns False immediately, makes no transport call, and
leaves drone_in_air unchanged. -/
theorem C10_idle_ignores (fail : TelloCall → Bool) (air : Bool) (command : Str) :
    CommandHandler.execute_command fail ("idle".data) air command
      = CommandHandler.GOut.mk air [] false false := rfl

/-- Counterexample to claim C1 as stated: a hover command while grounded, in
the GUI variant with a non-idle modality, issues a zero-velocity rc-control
transport call and returns True rather than a rejection. -/
theorem C1_counterexample :
    (CommandHandler.execute_command (fun _ => false) ("audio".data) false
        ("hover".data)).calls ≠ [] ∧
    (CommandHandler.execute_command (fun _ => false) ("audio".data) false
        ("hover".data)).ret = true := by
  decide

/-- Claim C1 as amended: while grounded, every command other than takeoff is
rejected with no transport call and no state change by the CLI
execute_command, and every command other than takeoff and hover is rejected
with no transport call and no state change by the GUI execute_command. -/
theorem C1_grounded_rejected (fail : TelloCall → Bool) (command : Str)
    (h : command ≠ "takeoff".data) :
    execute_command fail false command = ExecOut.mk false [] Res.rejected ∧
    (∀ modality, command ≠ "hover".data →
      CommandHandler.execute_command fail modality false command
        = CommandHandler.GOut.mk false [] false false) := by
  have h1 : (command == "takeoff".data) = false := beq_eq_false_iff_ne.mpr h
  constructor
  · by_cases h2 : command = "land".data
    · subst h2
      rfl
    · have h2' : (command == "land".data) = false := beq_eq_false_iff_ne.mpr h2
      simp [execute_command, h1, h2']
  · intro modality h3
    have h3' : (command == "hover".data) = false := beq_eq_false_iff_ne.mpr h3
    by_cases hm : modality = "idle".data
    · subst hm
      rfl
    · have hm' : (modality == "idle".data) = false := beq_eq_false_iff_ne.mpr hm
      by_cases h2 : command = "land".data
      · subst h2
        simp [CommandHandler.execute_command, hm']
      · have h2' : (command == "land".data) = false := beq_eq_false_iff_ne.mpr h2
        simp [CommandHandler.execute_command, hm', h1, h2', h3']

/-- Witness for C1: a move command while grounded is rejected in both
variants with no transport call. -/
theorem C1_witness :
    execute_command (fun _ => false) false ("move forward".data)
      = ExecOut.mk false [] Res.rejected ∧
    CommandHandler.execute_command (fun _ => false) ("audio".data) false
      ("move_forward".data) = CommandHandler.GOut.mk false [] false false :=
  ⟨(C1_grounded_rejected (fun _ => false) ("move forward".data) (by decide)).1,
   (C1_grounded_rejected (fun _ => false) ("move_forward".data) (by decide)).2
     ("audio".data) (by decide)⟩

/-- Claim C2: a battery reading of at most 10 while flying forces a landing,
a reading of more than 10 and at most 15 while flying forces a landing, and
the reading sequence 40, 16, 14, 9 from Airborne lands exactly once, at the
reading 14, with no further landing action at 9. -/
theorem C2_battery_watchdog :
    (∀ b : Nat, b ≤ 10 →
        keep_alive_tick b true
          = (false, [WatchAct.landAct, WatchAct.heartbeat])) ∧
    (∀ b : Nat, 10 < b → b ≤ 15 →
        keep_alive_tick b true
          = (false, [WatchAct.landAct, WatchAct.heartbeat])) ∧
    keep_alive_run true [40, 16, 14, 9]
      = [(true, []), (true, []), (false, [WatchAct.landAct, WatchAct.heartbeat]),
         (false, [WatchAct.heartbeat])] := by
  refine ⟨?_, ?_, by decide⟩
  · intro b hb
    simp [keep_alive_tick, hb]
  · intro b hb1 hb2
    have h1 : ¬ b ≤ 10 := by omega
    simp [keep_alive_tick, h1, hb2]

/-- Witness for C2: the critical reading 9 and the low reading 14 both force
a landing while flying. -/
theorem C2_witness :
    keep_alive_tick 9 true = (false, [WatchAct.landAct, WatchAct.heartbeat]) ∧
    keep_alive_tick 14 true = (false, [WatchAct.landAct, WatchAct.heartbeat]) :=
  ⟨C2_battery_watchdog.1 9 (by decide),
   C2_battery_watchdog.2.1 14 (by decide) (by decide)⟩

/-- Counterexample to claim C4 as stated: the GUI speech handler enqueue on a
full queue leaves the queue unchanged and the new item absent, so the newly
enqueued item is not admitted. -/
theorem C4_counterexample :
    add_to_queue 5 [0, 1, 2, 3, 4] 9 = [0, 1, 2, 3, 4] ∧
    9 ∉ add_to_queue 5 [0, 1, 2, 3, 4] 9 := by
  decide

/-- Claim C4 as amended: the queue never exceeds 5 items; the CLI voice
listener enqueue always admits the new item and, when the queue is full,
evicts the oldest queued item; the GUI speech handler enqueue instead keeps
the queue unchanged when full, dropping the new item. -/
theorem C4_queue_policy {α : Type} (q : List α) (x : α) (h : q.length ≤ 5) :
    (listenerEnqueue q x).length ≤ 5 ∧
    x ∈ listenerEnqueue q x ∧
    (q.length = 5 → listenerEnqueue q x = q.tail ++ [x]) ∧
    (add_to_queue 5 q x).length ≤ 5 ∧
    (q.length = 5 → add_to_queue 5 q x = q) := by
  unfold listenerEnqueue add_to_queue
  by_cases h5 : q.length < 5
  · rw [if_pos h5, if_pos h5]
    refine ⟨by simp; omega, by simp, fun he => absurd he (by omega),
      by simp; omega, fun he => absurd he (by omega)⟩
  · rw [if_neg h5, if_neg h5]
    have h5' : q.length = 5 := by omega
    refine ⟨by simp; omega, by simp, fun _ => by rw [List.drop_one],
      by omega, fun _ => rfl⟩

/-- Witness for C4: enqueueing a sixth item into a full queue of five. -/
theorem C4_witness :
    (listenerEnqueue [0, 1, 2, 3, 4] 9).length ≤ 5 ∧
    9 ∈ listenerEnqueue [0, 1, 2, 3, 4] 9 ∧
    listenerEnqueue [0, 1, 2, 3, 4] 9 = [1, 2, 3, 4, 9] ∧
    add_to_queue 5 [0, 1, 2, 3, 4] 9 = [0, 1, 2, 3, 4] :=
  ⟨(C4_queue_policy [0, 1, 2, 3, 4] 9 (by decide)).1,
   (C4_queue_policy [0, 1, 2, 3, 4] 9 (by decide)).2.1,
   ((C4_queue_policy [0, 1, 2, 3, 4] 9 (by decide)).2.2.1 (by decide)).trans
     (by decide),
   (C4_queue_policy [0, 1, 2, 3, 4] 9 (by decide)).2.2.2.2 (by decide)⟩

end Tello

namespace Tello

/-- Counterexample to claim C3 as stated: from the empty debounce state, 5
consecutive high-confidence frames labelled up emit no command at all, in
the CLI debounce loop as well as in the GUI GestureProcessor: the first
frame only installs the label with the counter reset to zero, so the counter
is 4 after 5 frames and the threshold of 5 is not reached. -/
theorem C3_counterexample :
    debRun (DebSt.mk [] 0) (List.replicate 5 ("up".data)) = [] ∧
    gprocRun (GProcSt.mk [] 0 0)
      [(1, "up".data), (2, "up".data), (3, "up".data), (4, "up".data),
       (5, "up".data)] = [] := by
  constructor
  · decide
  · norm_num [gprocRun, process_frame]

/-- Claim C3 as amended: from the empty debounce state, 4 consecutive
high-confidence up frames followed by one down frame emit nothing, and 6
consecutive up frames (not 5) emit exactly one up gesture, dispatched as the
upward rc-control move in the CLI loop and mapped to move_up in the GUI
handler. -/
theorem C3_debounce_amended :
    debRun (DebSt.mk [] 0)
      ["up".data, "up".data, "up".data, "up".data, "down".data] = [] ∧
    debRun (DebSt.mk [] 0) (List.replicate 6 ("up".data)) = ["up".data] ∧
    gestureDispatch (fun _ => false) true ("up".data)
      = (true, [TelloCall.sendRc 0 0 20 0]) ∧
    gprocRun (GProcSt.mk [] 0 0)
      [(1, "up".data), (2, "up".data), (3, "up".data), (4, "up".data),
       (5, "down".data)] = [] ∧
    gprocRun (GProcSt.mk [] 0 0)
      [(1, "up".data), (2, "up".data), (3, "up".data), (4, "up".data),
       (5, "up".data), (6, "up".data)] = ["up".data] ∧
    lookupTbl ("up".data) CommandHandler.gesture_mapping
      = some ("move_up".data) := by
  refine ⟨by decide, by decide, by decide, ?_, ?_, by decide⟩
  · norm_num [gprocRun, process_frame]
  · norm_num [gprocRun, process_frame]

theorem vlm_filter_lb (ins : List (ℚ × Bool)) :
    ∀ (lastT : ℚ) (p : ℚ × VlmAct) (ps : List (ℚ × VlmAct)),
      (vlmRun lastT ins).filter (fun q => q.2 == VlmAct.modelCall) = p :: ps →
      lastT + 3 < p.1 := by
  induction ins with
  | nil =>
    intro lastT p ps h
    simp [vlmRun] at h
  | cons a rest ih =>
    obtain ⟨now, fa⟩ := a
    intro lastT p ps h
    simp only [vlmRun] at h
    by_cases hc : 3 < now - lastT
    · cases fa with
      | false =>
        have hs : vlmStep lastT now false = (VlmAct.dropNoFrame, lastT) := by
          simp [vlmStep, hc]
        rw [hs, List.filter_cons_of_neg (by exact Bool.false_ne_true)] at h
        exact ih lastT p ps h
      | true =>
        have hs : vlmStep lastT now true = (VlmAct.modelCall, now) := by
          simp [vlmStep, hc]
        rw [hs, List.filter_cons_of_pos rfl] at h
        have h1 : ((now, VlmAct.modelCall) : ℚ × VlmAct) = p :=
          (List.cons.injEq _ _ _ _ ▸ h).1
        rw [← h1]
        simpa using by linarith
    · have hs : vlmStep lastT now fa = (VlmAct.dropCool, lastT) := by
        simp [vlmStep, hc]
      rw [hs, List.filter_cons_of_neg (by exact Bool.false_ne_true)] at h
      exact ih lastT p ps h

theorem vlm_filter_chain (ins : List (ℚ × Bool)) :
    ∀ lastT : ℚ,
      ((vlmRun lastT ins).filter (fun q => q.2 == VlmAct.modelCall)).Chain'
        (fun a b => a.1 + 3 < b.1) := by
  induction ins with
  | nil =>
    intro lastT
    simp [vlmRun]
  | cons a rest ih =>
    obtain ⟨now, fa⟩ := a
    intro lastT
    simp only [vlmRun]
    by_cases hc : 3 < now - lastT
    · cases fa with
      | false =>
        have hs : vlmStep lastT now false = (VlmAct.dropNoFrame, lastT) := by
          simp [vlmStep, hc]
        rw [hs, List.filter_cons_of_neg (by exact Bool.false_ne_true)]
        exact ih lastT
      | true =>
        have hs : vlmStep lastT now true = (VlmAct.modelCall, now) := by
          simp [vlmStep, hc]
        rw [hs, List.filter_cons_of_pos rfl]
        rw [List.chain'_cons']
        refine ⟨?_, ih now⟩
        intro b hb
        cases hL : (vlmRun now rest).filter (fun q => q.2 == VlmAct.modelCall) with
        | nil =>
          rw [hL] at hb
          simp at hb
        | cons c t =>
          rw [hL] at hb
          simp at hb
          subst hb
          exact vlm_filter_lb rest now c t hL
    · have hs : vlmStep lastT now fa = (VlmAct.dropCool, lastT) := by
        simp [vlmStep, hc]
      rw [hs, List.filter_cons_of_neg (by exact Bool.false_ne_true)]
      exact ih lastT

/-- Claim C5: a dequeued vision-query item within the 3 second cooldown of
the last accepted dispatch is dropped without a model call and without
touching the cooldown timestamp; an item with no frame available is dropped
without a model call and without touching the cooldown timestamp; and over
any run, any two model calls are more than 3 seconds apart. -/
theorem C5_vlm_cooldown :
    (∀ (lastT now : ℚ) (fa : Bool), ¬ 3 < now - lastT →
        vlmStep lastT now fa = (VlmAct.dropCool, lastT)) ∧
    (∀ lastT now : ℚ, 3 < now - lastT →
        vlmStep lastT now false = (VlmAct.dropNoFrame, lastT)) ∧
    (∀ (lastT : ℚ) (ins : List (ℚ × Bool)),
        ((vlmRun lastT ins).filter (fun q => q.2 == VlmAct.modelCall)).Pairwise
          (fun a b => 3 < b.1 - a.1)) := by
  refine ⟨?_, ?_, ?_⟩
  · intro lastT now fa h
    simp [vlmStep, h]
  · intro lastT now h
    simp [vlmStep, h]
  · intro lastT ins
    haveI : IsTrans (ℚ × VlmAct) (fun a b => a.1 + 3 < b.1) :=
      ⟨fun a b c hab hbc => by linarith⟩
    have hp := List.chain'_iff_pairwise.mp (vlm_filter_chain ins lastT)
    exact hp.imp (fun hab => by linarith)

/-- Witness for C5: a second query one second after an accepted one is
dropped without resetting the cooldown; a query with no frame available is
dropped without touching the cooldown; concrete two-item run. -/
theorem C5_witness :
    vlmStep 4 5 true = (VlmAct.dropCool, 4) ∧
    vlmStep 0 4 false = (VlmAct.dropNoFrame, 0) ∧
    ((vlmRun 0 [(4, true), (5, true)]).filter
        (fun q => q.2 == VlmAct.modelCall)).Pairwise (fun a b => 3 < b.1 - a.1) :=
  ⟨C5_vlm_cooldown.1 4 5 true (by norm_num),
   C5_vlm_cooldown.2.1 0 4 (by norm_num),
   C5_vlm_cooldown.2.2 0 [(4, true), (5, true)]⟩

end Tello

namespace Tello

/-- Counterexample to claim C6 as stated: an accepted forward gesture while
grounded is not mapped to takeoff in either variant: the GUI handler maps it
to move_forward, which is rejected while grounded with no transport call and
returns False, and the CLI loop sends the forward rc-control regardless of
flight state. -/
theorem C6_counterexample :
    CommandHandler.process_gesture_command (fun _ => false) ("gesture".data)
        false ("forward".data)
      = some (CommandHandler.GOut.mk false [] false false) ∧
    gestureDispatch (fun _ => false) false ("forward".data)
      = (false, [TelloCall.sendRc 0 20 0 0]) := by
  decide

set_option maxHeartbeats 1600000 in
/-- Claim C6 as amended: no accepted gesture is mapped to takeoff while
grounded; in the GUI handler every mapped gesture command is rejected while
grounded (returns False, no transport call, state unchanged), and in the CLI
loop the dispatch of a gesture while grounded never performs a takeoff and
never changes the flight state. -/
theorem C6_grounded_gestures (fail : TelloCall → Bool) (g : Str)
    (out : CommandHandler.GOut)
    (h : CommandHandler.process_gesture_command fail ("gesture".data) false g
          = some out) :
    out = CommandHandler.GOut.mk false [] false false ∧
    (gestureDispatch fail false g).1 = false ∧
    TelloCall.takeoff ∉ (gestureDispatch fail false g).2 := by
  refine ⟨?_, ?_, ?_⟩
  · unfold CommandHandler.process_gesture_command at h
    by_cases hg : g.isEmpty
    · rw [if_pos hg] at h
      exact absurd h (by simp)
    · rw [if_neg hg] at h
      cases hm : lookupTbl g CommandHandler.gesture_mapping with
      | none =>
        rw [hm] at h
        exact absurd h (by simp)
      | some cmd =>
        rw [hm] at h
        have hout : out
            = CommandHandler.execute_command fail ("gesture".data) false cmd :=
          (Option.some.inj h).symm
        simp only [CommandHandler.gesture_mapping, lookupTbl] at hm
        split_ifs at hm
        all_goals
          first
          | (injection hm with hm2; subst hm2; rw [hout]; rfl)
          | (exact absurd hm (by simp))
  · unfold gestureDispatch
    split_ifs <;> rfl
  · have hf : execute_command fail false ("flip forward".data)
        = ExecOut.mk false [] Res.rejected := rfl
    have hl : execute_command fail false ("land".data)
        = ExecOut.mk false [] Res.rejected := rfl
    unfold gestureDispatch
    rw [hf, hl]
    split_ifs <;> simp

/-- Witness for C6: the land gesture while grounded. -/
theorem C6_witness :
    CommandHandler.GOut.mk false [] false false
      = CommandHandler.GOut.mk false [] false false ∧
    (gestureDispatch (fun _ => false) false ("land".data)).1 = false ∧
    TelloCall.takeoff ∉ (gestureDispatch (fun _ => false) false ("land".data)).2 :=
  C6_grounded_gestures (fun _ => false) ("land".data)
    (CommandHandler.GOut.mk false [] false false) (by decide)

theorem attemptCall_fails (fail : TelloCall → Bool) (air : Bool) (c : TelloCall)
    (airAfter : Bool) :
    (attemptCall fail air c airAfter).res = Res.fails →
      (attemptCall fail air c airAfter).air = air ∧
      (attemptCall fail air c airAfter).calls ≠ [] ∧
      (air = true → (attemptCall fail air c airAfter).calls.tail
        = [TelloCall.sendRc 0 0 0 0]) ∧
      (air = false → (attemptCall fail air c airAfter).calls.tail = []) := by
  unfold attemptCall
  split_ifs with h1 h2 <;> intro h <;> simp_all

theorem gAttempt_caught (fail : TelloCall → Bool) (air : Bool) (c : TelloCall)
    (airAfter : Bool) :
    (CommandHandler.gAttempt fail air c airAfter).caught = true →
      (CommandHandler.gAttempt fail air c airAfter).ret = false ∧
      (CommandHandler.gAttempt fail air c airAfter).air = air ∧
      (CommandHandler.gAttempt fail air c airAfter).calls ≠ [] ∧
      (air = true → (CommandHandler.gAttempt fail air c airAfter).calls.tail
        = [TelloCall.sendRc 0 0 0 0]) ∧
      (air = false → (CommandHandler.gAttempt fail air c airAfter).calls.tail
        = []) := by
  unfold CommandHandler.gAttempt
  split_ifs with h1 h2 <;> intro h <;> simp_all

set_option maxHeartbeats 1600000 in
/-- Claim C7: if the transport call raises during execute_command, the error
is caught: the CLI variant ends with the fails outcome and the GUI variant
with the caught flag and a False return; the flight state is unchanged, and
exactly one stabilizing zero-velocity hover follows the failed call if and
only if the flight state is Airborne, with the failure of that hover itself
swallowed (the conclusion holds for every failure oracle, in particular when
the hover call raises too). -/
theorem C7_error_policy (fail : TelloCall → Bool) (air : Bool) (command : Str) :
    ((execute_command fail air command).res = Res.fails →
      (execute_command fail air command).air = air ∧
      (execute_command fail air command).calls ≠ [] ∧
      (air = true → (execute_command fail air command).calls.tail
        = [TelloCall.sendRc 0 0 0 0]) ∧
      (air = false → (execute_command fail air command).calls.tail = [])) ∧
    (∀ modality,
      (CommandHandler.execute_command fail modality air command).caught = true →
      (CommandHandler.execute_command fail modality air command).ret = false ∧
      (CommandHandler.execute_command fail modality air command).air = air ∧
      (CommandHandler.execute_command fail modality air command).calls ≠ [] ∧
      (air = true →
        (CommandHandler.execute_command fail modality air command).calls.tail
          = [TelloCall.sendRc 0 0 0 0]) ∧
      (air = false →
        (CommandHandler.execute_command fail modality air command).calls.tail
          = [])) := by
  constructor
  · unfold execute_command
    split_ifs <;>
      first
        | apply attemptCall_fails
        | (intro h; simp at h)
        | (cases lookupTbl command flightTable <;>
            first
              | apply attemptCall_fails
              | (intro h; simp at h))
  · intro modality
    unfold CommandHandler.execute_command
    split_ifs <;>
      first
        | apply gAttempt_caught
        | (intro h; simp at h)
        | (cases lookupTbl command CommandHandler.airTable <;>
            first
              | apply gAttempt_caught
              | (intro h; simp at h))

/-- Witness for C7: a move command failing in the air in both variants,
under an oracle that makes every transport call raise, including the
stabilizing hover itself. -/
theorem C7_witness :
    (execute_command (fun _ => true) true ("move up".data)).air = true ∧
    (execute_command (fun _ => true) true ("move up".data)).calls ≠ [] ∧
    (execute_command (fun _ => true) true ("move up".data)).calls.tail
      = [TelloCall.sendRc 0 0 0 0] ∧
    (CommandHandler.execute_command (fun _ => true) ("audio".data) true
        ("move_up".data)).ret = false ∧
    (CommandHandler.execute_command (fun _ => true) ("audio".data) true
        ("move_up".data)).air = true ∧
    (CommandHandler.execute_command (fun _ => true) ("audio".data) true
        ("move_up".data)).calls ≠ [] ∧
    (CommandHandler.execute_command (fun _ => true) ("audio".data) true
        ("move_up".data)).calls.tail = [TelloCall.sendRc 0 0 0 0] :=
  ⟨((C7_error_policy (fun _ => true) true ("move up".data)).1 (by decide)).1,
   ((C7_error_policy (fun _ => true) true ("move up".data)).1 (by decide)).2.1,
   ((C7_error_policy (fun _ => true) true ("move up".data)).1 (by decide)).2.2.1
     rfl,
   ((C7_error_policy (fun _ => true) true ("move_up".data)).2 ("audio".data)
     (by decide)).1,
   ((C7_error_policy (fun _ => true) true ("move_up".data)).2 ("audio".data)
     (by decide)).2.1,
   ((C7_error_policy (fun _ => true) true ("move_up".data)).2 ("audio".data)
     (by decide)).2.2.1,
   ((C7_error_policy (fun _ => true) true ("move_up".data)).2 ("audio".data)
     (by decide)).2.2.2.1 rfl⟩

set_option maxHeartbeats 1600000 in
/-- Claim C9: execute_command updates the flight state only after the
corresponding transport call returns successfully, so on a caught transport
error the drone_in_air flag is unchanged in both variants; in particular a
raising takeoff leaves it false and a raising land leaves it true. -/
theorem C9_state_unchanged_on_error (fail : TelloCall → Bool) (air : Bool)
    (command : Str) :
    ((execute_command fail air command).res = Res.fails →
      (execute_command fail air command).air = air) ∧
    (∀ modality,
      (CommandHandler.execute_command fail modality air command).caught = true →
      (CommandHandler.execute_command fail modality air command).air = air) := by
  constructor
  · unfold execute_command
    split_ifs <;>
      first
        | (intro h; exact ((attemptCall_fails _ _ _ _) h).1)
        | (intro h; simp at h)
        | (cases lookupTbl command flightTable <;>
            first
              | (intro h; exact ((attemptCall_fails _ _ _ _) h).1)
              | (intro h; simp at h))
  · intro modality
    unfold CommandHandler.execute_command
    split_ifs <;>
      first
        | (intro h; exact ((gAttempt_caught _ _ _ _) h).2.1)
        | (intro h; simp at h)
        | (cases lookupTbl command CommandHandler.airTable <;>
            first
              | (intro h; exact ((gAttempt_caught _ _ _ _) h).2.1)
              | (intro h; simp at h))

/-- Witness for C9: a raising takeoff leaves the state Grounded and a
raising land leaves it Airborne, in both variants. -/
theorem C9_witness :
    (execute_command (fun _ => true) false ("takeoff".data)).air = false ∧
    (execute_command (fun _ => true) true ("land".data)).air = true ∧
    (CommandHandler.execute_command (fun _ => true) ("audio".data) false
        ("takeoff".data)).air = false ∧
    (CommandHandler.execute_command (fun _ => true) ("audio".data) true
        ("land".data)).air = true :=
  ⟨(C9_state_unchanged_on_error (fun _ => true) false ("takeoff".data)).1
     (by decide),
   (C9_state_unchanged_on_error (fun _ => true) true ("land".data)).1
     (by decide),
   (C9_state_unchanged_on_error (fun _ => true) false ("takeoff".data)).2
     ("audio".data) (by decide),
   (C9_state_unchanged_on_error (fun _ => true) true ("land".data)).2
     ("audio".data) (by decide)⟩

end Tello
